import Mathlib

/-!
# Verification of the Event-notifier daily agenda workflow

A shallow embedding of `src/notifier.py` (the whole repository is this one
file).  The program fetches one day's calendar events from the Microsoft
Graph API and sends a rendered digest through Twilio; both external
services are modelled as explicit response values handed to the embedded
function, and the outbound network calls are recorded in an explicit trace.

Modelling conventions:
* Python `datetime` values are the `DT` structure (civil year/month/day,
  hour/minute/second/microsecond); calendar arithmetic uses the standard
  civil-from-days / days-from-civil algorithms.
* The reference timezone `Asia/Kolkata` (`IST_TZ`) has had the fixed
  offset UTC+05:30 with no daylight-saving transitions for every
  contemporary date, so it is modelled as the fixed offset 19800 seconds.
  `pytz`'s `%Z` abbreviation for it is `"IST"`.
* `datetime.strptime` against the three literal formats of the source is
  embedded by a backtracking character parser that follows CPython's
  `_strptime` regular expressions for `%Y %m %d %H %M %S %f` (ordered
  alternation, greedy `%f` with backtracking, case-insensitive literals,
  full-match anchoring) followed by the `datetime` constructor's range
  validation.
* `datetime.fromisoformat` is embedded after CPython's (3.10) reference
  implementation of the parser, with `int` fields modelled digit-strict.
* Exceptions are modelled by `Option`/`Except`; every `try/except` of the
  source corresponds to a total function, which is why the rendering code
  can never raise.
-/

namespace EventNotifier

/-! ## Civil calendar arithmetic -/

def isLeap (y : Nat) : Bool :=
  y % 4 == 0 && (y % 100 != 0 || y % 400 == 0)

def daysInMonth (y m : Nat) : Nat :=
  if m = 2 then (if isLeap y then 29 else 28)
  else if m = 4 ∨ m = 6 ∨ m = 9 ∨ m = 11 then 30
  else 31

/-- Validity of a civil date, as enforced by the `datetime.date` constructor
(`MINYEAR = 1`, `MAXYEAR = 9999`). -/
def validYMD (y m d : Nat) : Bool :=
  1 ≤ y && y ≤ 9999 && 1 ≤ m && m ≤ 12 && 1 ≤ d && d ≤ daysInMonth y m

/-- Days elapsed since 0000-03-01 (Gregorian, proleptic); the standard
days-from-civil computation, valid for years ≥ 1. -/
def daysSinceEra (y m d : Nat) : Nat :=
  let y' := if m ≤ 2 then y - 1 else y
  let era := y' / 400
  let yoe := y' % 400
  let mp := if 3 ≤ m then m - 3 else m + 9
  let doy := (153 * mp + 2) / 5 + (d - 1)
  let doe := yoe * 365 + yoe / 4 - yoe / 100 + doy
  era * 146097 + doe

/-- Inverse of `daysSinceEra`: the civil date of a day count from
0000-03-01 (standard civil-from-days computation). -/
def civilOfDays (z : Nat) : Nat × Nat × Nat :=
  let era := z / 146097
  let doe := z % 146097
  let yoe := (doe - doe / 1460 + doe / 36524 - doe / 146096) / 365
  let y' := yoe + era * 400
  let doy := doe - (365 * yoe + yoe / 4 - yoe / 100)
  let mp := (5 * doy + 2) / 153
  let d := doy - (153 * mp + 2) / 5 + 1
  let m := if mp < 10 then mp + 3 else mp - 9
  (if m ≤ 2 then y' + 1 else y', m, d)

/-- A naive Python `datetime` value. -/
structure DT where
  year : Nat
  month : Nat
  day : Nat
  hour : Nat
  minute : Nat
  second : Nat
  micro : Nat
deriving DecidableEq, Repr

/-- Seconds since 0000-03-01 00:00:00 of a naive datetime (microseconds
ignored, as the display format drops them). -/
def dtSecs (dt : DT) : Nat :=
  daysSinceEra dt.year dt.month dt.day * 86400
    + dt.hour * 3600 + dt.minute * 60 + dt.second

/-- The `datetime` constructor's validation: field ranges checked when
`datetime.strptime` / `fromisoformat` build the result object. -/
def mkValid (dt : DT) : Option DT :=
  if validYMD dt.year dt.month dt.day
      && dt.hour ≤ 23 && dt.minute ≤ 59 && dt.second ≤ 59 && dt.micro ≤ 999999
  then some dt else none

/-! ## Backtracking parser combinators

`strptime` compiles its format to an `re` pattern and takes the first
(leftmost-alternative, greedy-with-backtracking) full match.  A parser
here returns every way to consume a value off the front of the input, in
the order the regex engine would explore them. -/

def P (α : Type) : Type := List Char → List (α × List Char)

def pPure {α : Type} (a : α) : P α := fun cs => [(a, cs)]

def pBind {α β : Type} (p : P α) (f : α → P β) : P β :=
  fun cs => (p cs).flatMap fun pr => f pr.1 pr.2

instance : Monad P where
  pure := pPure
  bind := pBind

/-- Ordered alternation, as in a regex `a|b|c`. -/
def pAlt {α : Type} (ps : List (P α)) : P α :=
  fun cs => ps.flatMap fun p => p cs

def digitVal (c : Char) : Nat := c.toNat - 48

/-- One character in an inclusive range, yielding its digit value. -/
def pDigitRange (lo hi : Char) : P Nat :=
  fun cs =>
    match cs with
    | [] => []
    | c :: rest => if lo ≤ c ∧ c ≤ hi then [(digitVal c, rest)] else []

def pDigit : P Nat := pDigitRange '0' '9'

/-- A literal character; `strptime` compiles its pattern with
`re.IGNORECASE`, so letters match either case. -/
def pCharCI (c : Char) : P Unit :=
  fun cs =>
    match cs with
    | [] => []
    | c' :: rest => if c'.toLower = c.toLower then [((), rest)] else []

/-- Two-digit field built from two single-character parsers. -/
def p2 (pa pb : P Nat) : P Nat := do
  let a ← pa
  let b ← pb
  pure (10 * a + b)

/-- Exactly `n` digits. -/
def pDigitsN : Nat → P (List Nat)
  | 0 => pPure []
  | n + 1 => do
    let d ← pDigit
    let rest ← pDigitsN n
    pure (d :: rest)

/-! Field patterns of CPython `_strptime.TimeRE`:
`%Y` = `\d\d\d\d`, `%m` = `1[0-2]|0[1-9]|[1-9]`,
`%d` = `3[01]|[12]\d|0[1-9]|[1-9]`, `%H` = `2[0-3]|[0-1]\d|\d`,
`%M` = `[0-5]\d|\d`, `%S` = `6[0-1]|[0-5]\d|\d`, `%f` = `[0-9]{1,6}`. -/

def pY : P Nat := do
  let a ← pDigit
  let b ← pDigit
  let c ← pDigit
  let d ← pDigit
  pure (1000 * a + 100 * b + 10 * c + d)

def pMon : P Nat :=
  pAlt [p2 (pDigitRange '1' '1') (pDigitRange '0' '2'),
        p2 (pDigitRange '0' '0') (pDigitRange '1' '9'),
        pDigitRange '1' '9']

def pDay : P Nat :=
  pAlt [p2 (pDigitRange '3' '3') (pDigitRange '0' '1'),
        p2 (pDigitRange '1' '2') pDigit,
        p2 (pDigitRange '0' '0') (pDigitRange '1' '9'),
        pDigitRange '1' '9']

def pHour : P Nat :=
  pAlt [p2 (pDigitRange '2' '2') (pDigitRange '0' '3'),
        p2 (pDigitRange '0' '1') pDigit,
        pDigit]

def pMinu : P Nat :=
  pAlt [p2 (pDigitRange '0' '5') pDigit, pDigit]

def pSec : P Nat :=
  pAlt [p2 (pDigitRange '6' '6') (pDigitRange '0' '1'),
        p2 (pDigitRange '0' '5') pDigit,
        pDigit]

/-- The `%f` digits right-padded to six, i.e. the microsecond value
`int(found.ljust(6, '0'))` of `_strptime`. -/
def microOf (ds : List Nat) : Nat :=
  (ds.foldl (fun acc d => 10 * acc + d) 0) * 10 ^ (6 - ds.length)

/-- Greedy `[0-9]{1,6}` with backtracking: longest first. -/
def pFrac : P Nat :=
  pAlt ([6, 5, 4, 3, 2, 1].map fun n => do
    let ds ← pDigitsN n
    pure (microOf ds))

/-- The shared `"%Y-%m-%dT%H:%M:%S"` core of the three formats. -/
def pBase : P DT := do
  let y ← pY
  let _ ← pCharCI '-'
  let mo ← pMon
  let _ ← pCharCI '-'
  let da ← pDay
  let _ ← pCharCI 'T'
  let h ← pHour
  let _ ← pCharCI ':'
  let mi ← pMinu
  let _ ← pCharCI ':'
  let s ← pSec
  pure ⟨y, mo, da, h, mi, s, 0⟩

/-- Format `"%Y-%m-%dT%H:%M:%S.%f0"` (fraction followed by a literal `0`). -/
def fmtDotF0 : P DT := do
  let b ← pBase
  let _ ← pCharCI '.'
  let f ← pFrac
  let _ ← pCharCI '0'
  pure { b with micro := f }

/-- Format `"%Y-%m-%dT%H:%M:%S.%f"`. -/
def fmtDotF : P DT := do
  let b ← pBase
  let _ ← pCharCI '.'
  let f ← pFrac
  pure { b with micro := f }

/-- Format `"%Y-%m-%dT%H:%M:%S"`. -/
def fmtPlain : P DT := pBase

/-- Model of `datetime.strptime(s, fmt)`: the first full match of the compiled
pattern, then the `datetime` constructor's validation; `none` when the
call would raise. -/
def strptimeF (fmt : P DT) (s : String) : Option DT :=
  match (((fmt s.data).filter fun pr => pr.2 = []).map fun pr => pr.1).head? with
  | some dt => mkValid dt
  | none => none

/-! ## `datetime.fromisoformat` (CPython 3.10 reference implementation) -/

/-- Model of `str.replace("Z", "+00:00")` (every occurrence, left to right). -/
def replaceZ : List Char → List Char
  | [] => []
  | c :: rest =>
    if c = 'Z' then '+' :: '0' :: '0' :: ':' :: '0' :: '0' :: replaceZ rest
    else c :: replaceZ rest

def allDigits (cs : List Char) : Bool := cs.all fun c => c.isDigit

/-- Digit-strict model of `int` on a field slice. -/
def natOfDigits (cs : List Char) : Nat :=
  cs.foldl (fun acc c => 10 * acc + digitVal c) 0

/-- Embeds `_parse_isoformat_date` on `dtstr[0:10]`: `YYYY-MM-DD`, where the day
field may be a single digit when the string ends there (slices do not
range-check). -/
def parseIsoDate (cs : List Char) : Option (Nat × Nat × Nat) :=
  match cs with
  | [a, b, c, d, '-', e, f, '-', g, h] =>
    if allDigits [a, b, c, d, e, f, g, h] then
      some (natOfDigits [a, b, c, d], natOfDigits [e, f], natOfDigits [g, h])
    else none
  | [a, b, c, d, '-', e, f, '-', g] =>
    if allDigits [a, b, c, d, e, f, g] then
      some (natOfDigits [a, b, c, d], natOfDigits [e, f], natOfDigits [g])
    else none
  | _ => none

def take2Digits (cs : List Char) : Option (Nat × List Char) :=
  match cs with
  | a :: b :: rest =>
    if a.isDigit ∧ b.isDigit then some (10 * digitVal a + digitVal b, rest)
    else none
  | _ => none

/-- Embeds `_parse_hh_mm_ss_ff`: `HH[:MM[:SS[.fff[fff]]]]`, two-digit components,
fraction of exactly three or six digits (three-digit milliseconds scaled
to microseconds). -/
def parseHMSF (cs : List Char) : Option (Nat × Nat × Nat × Nat) :=
  match take2Digits cs with
  | none => none
  | some (h, r1) =>
    match r1 with
    | [] => some (h, 0, 0, 0)
    | ':' :: r2 =>
      match take2Digits r2 with
      | none => none
      | some (m, r3) =>
        match r3 with
        | [] => some (h, m, 0, 0)
        | ':' :: r4 =>
          match take2Digits r4 with
          | none => none
          | some (s, r5) =>
            match r5 with
            | [] => some (h, m, s, 0)
            | '.' :: r6 =>
              if allDigits r6 then
                if r6.length = 3 then some (h, m, s, natOfDigits r6 * 1000)
                else if r6.length = 6 then some (h, m, s, natOfDigits r6)
                else none
              else none
            | _ => none
        | _ => none
    | _ => none

/-- Embeds `_parse_isoformat_time`: split a trailing timezone part at the first
`-` (else the first `+`), parse both halves with `parseHMSF`, require the
timezone slice length in {5, 8, 15} and the offset strictly below 24
hours (`timezone` constructor); the offset itself is then discarded by
`.replace(tzinfo=None)` in the caller. -/
def parseIsoTime (cs : List Char) : Option (Nat × Nat × Nat × Nat) :=
  if cs.length < 2 then none
  else
    let tzIdx :=
      match cs.findIdx? (fun c => c = '-') with
      | some i => some i
      | none => cs.findIdx? (fun c => c = '+')
    match tzIdx with
    | none => parseHMSF cs
    | some i =>
      let timestr := cs.take i
      let tzstr := cs.drop (i + 1)
      match parseHMSF timestr with
      | none => none
      | some t =>
        if tzstr.length = 5 ∨ tzstr.length = 8 ∨ tzstr.length = 15 then
          match parseHMSF tzstr with
          | none => none
          | some (th, tm, ts, tf) =>
            if (th * 3600 + tm * 60 + ts) * 1000000 + tf < 86400000000 then
              some t
            else none
        else none

/-- Embeds `datetime.fromisoformat(s)` after the source's
`s.replace("Z", "+00:00")`, with the attached offset dropped again by
`.replace(tzinfo=None)`: date from the first ten characters, the eleventh
character (any separator) skipped, time from the rest. -/
def pyFromIso (s : String) : Option DT :=
  let cs := replaceZ s.data
  let dstr := cs.take 10
  let tstr := cs.drop 11
  match parseIsoDate dstr with
  | none => none
  | some (y, m, d) =>
    match (if tstr.isEmpty then some (0, 0, 0, 0) else parseIsoTime tstr) with
    | none => none
    | some (h, mi, s', f) => mkValid ⟨y, m, d, h, mi, s', f⟩

/-- The whole parsing chain of lines 103–115 of `notifier.py`: the three
`strptime` formats in order, then the `fromisoformat` fallback; every
exception is caught, so failure is `none`. -/
def parseStart (s : String) : Option DT :=
  match strptimeF fmtDotF0 s with
  | some d => some d
  | none =>
    match strptimeF fmtDotF s with
    | some d => some d
    | none =>
      match strptimeF fmtPlain s with
      | some d => some d
      | none => pyFromIso s

/-! ## Display formatting (lines 117–123 of `notifier.py`) -/

/-- Zero-padded two-digit field of `strftime`. -/
def pad2 (n : Nat) : String :=
  if n < 10 then "0" ++ toString n else toString n

/-- Zero-padded four-digit `%Y` field of `strftime`. -/
def pad4 (n : Nat) : String :=
  if n < 10 then "000" ++ toString n
  else if n < 100 then "00" ++ toString n
  else if n < 1000 then "0" ++ toString n
  else toString n

/-- Model of `UTC_TZ.localize(dt_obj).astimezone(IST_TZ)`: the parsed value is
treated as UTC-naive and shifted by the fixed IST offset +05:30. -/
def toIstCivil (dt : DT) : DT :=
  let t := dtSecs dt + 19800
  let ymd := civilOfDays (t / 86400)
  ⟨ymd.1, ymd.2.1, ymd.2.2, t % 86400 / 3600, t % 3600 / 60, t % 60, dt.micro⟩

/-- Model of `start_ist_dt.strftime("%Y-%m-%d %H:%M:%S %Z")`; `pytz`'s zone
abbreviation for Asia/Kolkata is `"IST"`. -/
def fmtIstDisplay (dt : DT) : String :=
  let l := toIstCivil dt
  pad4 l.year ++ "-" ++ pad2 l.month ++ "-" ++ pad2 l.day ++ " "
    ++ pad2 l.hour ++ ":" ++ pad2 l.minute ++ ":" ++ pad2 l.second ++ " IST"

/-- Lines 101–123: the displayed start string for
`event.get("start", {}).get("dateTime")`.  On parse success the value is
localized and formatted; on total failure the code runs
`start_str = start_raw or "Unknown time"`, so a `None` or empty raw value
displays `"Unknown time"` and any other raw string displays verbatim.
Every exception of the parsing chain is caught in the source, so this is
a total function. -/
def startStr (startRaw : Option String) : String :=
  match startRaw with
  | some s =>
    match parseStart s with
    | some dt => fmtIstDisplay dt
    | none => if s = "" then "Unknown time" else s
  | none => "Unknown time"

/-! ## Per-event rendering and digest assembly -/

/-- A calendar event as consumed by the loop of lines 97–126: the
`subject` key, the nested `start.dateTime` value and the nested
`responseStatus.response` value, each possibly absent.  Present values
are modelled as strings (the Graph API shape the code reads). -/
structure Event where
  subject : Option String
  startDateTime : Option String
  responseStatus : Option String
deriving DecidableEq, Repr

/-- Line 126: `f"{subject} at {start_str} - Status: {status}"` with the
defaults of `event.get("subject", "(No subject)")` and
`event.get("responseStatus", {}).get("response", "Unknown")`. -/
def renderLine (e : Event) : String :=
  (match e.subject with
   | some s => s
   | none => "(No subject)")
  ++ " at " ++ startStr e.startDateTime ++ " - Status: "
  ++ (match e.responseStatus with
      | some s => s
      | none => "Unknown")

/-- The `event_list.append(...)` loop over `events`, in input order. -/
def eventLines (events : List Event) : List String :=
  events.foldl (fun acc e => acc ++ [renderLine e]) []

/-- Model of `"\n".join(event_list)`. -/
def joinNl : List String → String
  | [] => ""
  | [s] => s
  | s :: rest => s ++ "\n" ++ joinNl rest

/-- Lines 128–131: digest assembly. -/
def buildBody (eventList : List String) : String :=
  if eventList.isEmpty then "No meetings scheduled for today."
  else "Today's scheduled meetings:\n" ++ joinNl eventList

/-! ## The time window (lines 71–75) -/

/-- A civil date, as produced by `datetime.now(IST_TZ).date()`. -/
structure Date where
  year : Nat
  month : Nat
  day : Nat
deriving DecidableEq, Repr

def validDate (d : Date) : Bool := validYMD d.year d.month d.day

/-- Value of `datetime.min.time()` = 00:00:00. -/
def pyMinTime : Nat × Nat × Nat := (0, 0, 0)

/-- Value of `datetime.max.time().replace(microsecond=0)` = 23:59:59. -/
def pyMaxTimeSec : Nat × Nat × Nat := (23, 59, 59)

/-- Model of `IST_TZ.localize(naive).astimezone(UTC_TZ)` as a UTC instant in
seconds from the 0000-03-01 epoch: Asia/Kolkata is the fixed offset
UTC+05:30 (19800 s), with no daylight-saving transitions. -/
def istLocalizeToUtc (y m d h mi s : Nat) : Int :=
  ((daysSinceEra y m d * 86400 + h * 3600 + mi * 60 + s : Nat) : Int) - 19800

/-- Line 72/74: `start_ist` converted to UTC. -/
def windowStartUtc (t : Date) : Int :=
  istLocalizeToUtc t.year t.month t.day pyMinTime.1 pyMinTime.2.1 pyMinTime.2.2

/-- Line 73/75: `end_ist` converted to UTC. -/
def windowEndUtc (t : Date) : Int :=
  istLocalizeToUtc t.year t.month t.day pyMaxTimeSec.1 pyMaxTimeSec.2.1 pyMaxTimeSec.2.2

/-! ## Configuration and the error taxonomy -/

/-- The environment variables read at lines 30–38; `os.getenv` yields
`none` when a variable is unset. -/
structure Config where
  tenant_id : Option String
  client_id : Option String
  client_secret : Option String
  scope : Option String
  twilio_sid : Option String
  twilio_token : Option String
  twilio_from : Option String
  twilio_to : Option String
deriving DecidableEq, Repr

/-- Python truthiness of an optional environment value: `not v` holds for
`None` and for the empty string. -/
def truthyStr : Option String → Bool
  | none => false
  | some s => s ≠ ""

/-- The `required` dict of lines 41–45, in source order. -/
def requiredVars (c : Config) : List (String × Option String) :=
  [("TENANT_ID", c.tenant_id), ("CLIENT_ID", c.client_id),
   ("CLIENT_SECRET", c.client_secret), ("TWILIO_SID", c.twilio_sid),
   ("TWILIO_TOKEN", c.twilio_token), ("TWILIO_FROM", c.twilio_from),
   ("TWILIO_TO", c.twilio_to)]

/-- Line 46: `missing = [k for k, v in required.items() if not v]`. -/
def missingVars (c : Config) : List String :=
  ((requiredVars c).filter fun p => !truthyStr p.2).map fun p => p.1

/-- The error taxonomy, one constructor per raise site of
`notify_user_calendar`:
* `configError` — line 48, `RuntimeError` for missing environment
  variables;
* `httpError` — `resp.raise_for_status()` at lines 62/89, the
  `requests.HTTPError` raised when the body was not JSON and the status
  is 4xx/5xx (its message carries status and URL, never the body);
* `authError` — line 67, `RuntimeError` for a transport-level success
  with no usable token (carries the `str` of the parsed token JSON);
* `upstreamError` — line 93, `RuntimeError` for a Graph status ≥ 400
  (carries the `str` of the parsed body). -/
inductive Err where
  | configError (missing : List String)
  | httpError (status : Nat)
  | authError (tokenRepr : String)
  | upstreamError (status : Nat) (dataRepr : String)
deriving DecidableEq, Repr

def joinCommaSp : List String → String
  | [] => ""
  | [s] => s
  | s :: rest => s ++ ", " ++ joinCommaSp rest

/-- The message of each raised exception (for `requests.HTTPError` the
reason and URL parts are omitted; they never contain the body). -/
def errMsg : Err → String
  | .configError ms => "Missing environment variables: " ++ joinCommaSp ms
  | .httpError st =>
    toString st ++ (if st < 500 then " Client Error" else " Server Error")
  | .authError r => "Failed to get access token: " ++ r
  | .upstreamError st r => "Graph API error " ++ toString st ++ ": " ++ r

/-! ## The two upstream responses and the outbound-call trace -/

/-- The parsed token-endpoint JSON: its `str` form (for the error
message) and the `access_token` entry when it is a string. -/
structure TokJson where
  repr : String
  access_token : Option String
deriving DecidableEq, Repr

/-- The token-endpoint response; `json = none` models a body on which
`resp.json()` raises. -/
structure TokResponse where
  status_code : Nat
  json : Option TokJson
deriving DecidableEq, Repr

/-- The parsed calendar-query JSON: its `str` form and the `value` entry
when it is a list of event objects. -/
structure CalJson where
  repr : String
  value : Option (List Event)
deriving DecidableEq, Repr

structure CalResponse where
  status_code : Nat
  json : Option CalJson
deriving DecidableEq, Repr

/-- One outbound network call of the run, in order: the token POST, the
calendar GET, and the Twilio send carrying the message body. -/
inductive Call where
  | tokenCall
  | calendarCall
  | messageCall (body : String)
deriving DecidableEq, Repr

/-- The dict returned at line 141. -/
structure RunResult where
  message : String
  sid : String
  events : List String
deriving DecidableEq, Repr

/-- Lines 59–63 (and 86–90 for the calendar): `try: resp.json() except:
resp.raise_for_status(); data = {}`.  `raise_for_status` raises exactly
for 400 ≤ status < 600; otherwise the parsed data defaults to the empty
dict (whose `str` is `"\x7b\x7d"`). -/
def tokenJsonOf (r : TokResponse) : Except Err TokJson :=
  match r.json with
  | some j => .ok j
  | none =>
    if 400 ≤ r.status_code ∧ r.status_code < 600 then
      .error (.httpError r.status_code)
    else .ok ⟨"\x7b\x7d", none⟩

def calJsonOf (r : CalResponse) : Except Err CalJson :=
  match r.json with
  | some j => .ok j
  | none =>
    if 400 ≤ r.status_code ∧ r.status_code < 600 then
      .error (.httpError r.status_code)
    else .ok ⟨"\x7b\x7d", none⟩

/-- Lines 65–66: `token_json.get("access_token")` followed by the
truthiness test `if not access_token`. -/
def usableToken (j : TokJson) : Option String :=
  match j.access_token with
  | some t => if t = "" then none else some t
  | none => none

/-- Embeds `notify_user_calendar` (lines 29–141), with the two upstream
responses supplied as values and the Twilio message SID as the
provider-assigned identifier.  Returns the outcome together with the
ordered trace of outbound network calls actually made. -/
def notify_user_calendar (cfg : Config) (_userEmail : String)
    (tokResp : TokResponse) (calResp : CalResponse) (msgSid : String) :
    Except Err RunResult × List Call :=
  if missingVars cfg = [] then
    match tokenJsonOf tokResp with
    | .error e => (.error e, [Call.tokenCall])
    | .ok tj =>
      match usableToken tj with
      | none => (.error (.authError tj.repr), [Call.tokenCall])
      | some _tok =>
        match calJsonOf calResp with
        | .error e => (.error e, [Call.tokenCall, Call.calendarCall])
        | .ok data =>
          if 400 ≤ calResp.status_code then
            (.error (.upstreamError calResp.status_code data.repr),
             [Call.tokenCall, Call.calendarCall])
          else
            let eventList := eventLines (data.value.getD [])
            let body := buildBody eventList
            (.ok ⟨"WhatsApp notification sent", msgSid, eventList⟩,
             [Call.tokenCall, Call.calendarCall, Call.messageCall body])
  else (.error (.configError (missingVars cfg)), [])

/-! ## The scheduled trigger (lines 154–164) -/

/-- The log lines `scheduled_job` can emit. -/
inductive LogEntry where
  | errorNoEmail
  | infoSent (sid : String) (nEvents : Nat)
  | exceptionLog (e : Err)
deriving DecidableEq, Repr

/-- Embeds `scheduled_job`: it reads `DEFAULT_USER_EMAIL`; a missing (or empty,
by truthiness) value logs an error and returns.  The triggered run is
wrapped in `try/except Exception`, and every error the run can raise is
an `Exception` subclass (`RuntimeError` or `requests.HTTPError`), so the
outcome is always `.ok`: an uncaught exception would be `.error`. -/
def scheduled_job (defaultEmail : Option String)
    (runner : String → Except Err RunResult) : Except Err (List LogEntry) :=
  match defaultEmail with
  | none => .ok [LogEntry.errorNoEmail]
  | some e =>
    if e = "" then .ok [LogEntry.errorNoEmail]
    else
      match runner e with
      | .ok r => .ok [LogEntry.infoSent r.sid r.events.length]
      | .error err => .ok [LogEntry.exceptionLog err]

/-! ## Derived predicates over the responses -/

/-- Whether the token response carries a usable (truthy) access token. -/
def hasUsableToken (tok : TokResponse) : Bool :=
  match tok.json with
  | some j => (usableToken j).isSome
  | none => false

/-- Whether the calendar body failed to parse or parsed without a usable
`value` list. -/
def calValueMissing (cal : CalResponse) : Bool :=
  match cal.json with
  | none => true
  | some j => j.value.isNone

/-- The `str` form of the token JSON shown in the auth failure message
(the empty dict when `resp.json()` raised and `raise_for_status` was a
no-op). -/
def tokRepr (tok : TokResponse) : String :=
  match tok.json with
  | some j => j.repr
  | none => "\x7b\x7d"

/-! ## Fixtures used by witnesses and counterexamples -/

/-- A fully-populated configuration. -/
def cfgFull : Config :=
  ⟨some "tenant", some "client", some "secret", some "scope",
   some "twilioSid", some "twilioToken", some "whatsapp:+14155550100",
   some "whatsapp:+919900990099"⟩

/-- A token response that succeeds with a usable bearer token. -/
def tokGood : TokResponse := ⟨200, some ⟨"tokenjson", some "bearer"⟩⟩

/-! ## Helper lemmas -/

lemma eventLines_foldl (l : List Event) (acc : List String) :
    l.foldl (fun acc e => acc ++ [renderLine e]) acc = acc ++ l.map renderLine := by
  induction l generalizing acc with
  | nil => simp
  | cons x xs ih => simp [List.foldl_cons, ih]

lemma eventLines_eq_map (l : List Event) : eventLines l = l.map renderLine := by
  simpa [eventLines] using eventLines_foldl l []

/-- Tail form of `joinNl`, for relating it to `String.intercalate`. -/
def joinNlTail : List String → String
  | [] => ""
  | a :: as => "\n" ++ a ++ joinNlTail as

lemma intercalate_go_eq (as : List String) (acc : String) :
    String.intercalate.go acc "\n" as = acc ++ joinNlTail as := by
  induction as generalizing acc with
  | nil => simp [String.intercalate.go, joinNlTail]
  | cons a as ih =>
    simp [String.intercalate.go, joinNlTail, ih, String.append_assoc]

lemma joinNl_cons_eq (a : String) (as : List String) :
    joinNl (a :: as) = a ++ joinNlTail as := by
  induction as generalizing a with
  | nil => simp [joinNl, joinNlTail]
  | cons b bs ih =>
    show a ++ "\n" ++ joinNl (b :: bs) = _
    rw [ih, joinNlTail, String.append_assoc, String.append_assoc]

lemma joinNl_eq_intercalate (l : List String) :
    joinNl l = String.intercalate "\n" l := by
  cases l with
  | nil => rfl
  | cons a as => rw [String.intercalate, intercalate_go_eq, joinNl_cons_eq]

lemma usable_of_hasUsableToken {tok : TokResponse}
    (h : hasUsableToken tok = true) :
    ∃ j t, tok.json = some j ∧ usableToken j = some t := by
  unfold hasUsableToken at h
  rcases hj : tok.json with _ | j
  · rw [hj] at h; simp at h
  · rw [hj] at h
    obtain ⟨t, ht⟩ := Option.isSome_iff_exists.mp h
    exact ⟨j, t, rfl, ht⟩

/-- After a valid configuration and a usable token, the run is determined
by the calendar response alone. -/
lemma run_after_token (cfg : Config) (email : String) (tok : TokResponse)
    (cal : CalResponse) (sid : String) (j : TokJson) (t : String)
    (hcfg : missingVars cfg = []) (hj : tok.json = some j)
    (ht : usableToken j = some t) :
    notify_user_calendar cfg email tok cal sid =
      (match calJsonOf cal with
       | .error e => (.error e, [Call.tokenCall, Call.calendarCall])
       | .ok data =>
         if 400 ≤ cal.status_code then
           (.error (.upstreamError cal.status_code data.repr),
            [Call.tokenCall, Call.calendarCall])
         else
           (.ok ⟨"WhatsApp notification sent", sid,
                 eventLines (data.value.getD [])⟩,
            [Call.tokenCall, Call.calendarCall,
             Call.messageCall (buildBody (eventLines (data.value.getD [])))])) := by
  unfold notify_user_calendar tokenJsonOf
  rw [if_pos hcfg, hj]
  simp [ht]

/-! ## Claim theorems -/

/-- C1 (counterexample): the claim "a start timestamp string matching no
accepted format renders verbatim" fails on the empty string: `""` matches
no format, yet `start_str = start_raw or "Unknown time"` renders
`"Unknown time"`, not `""`. -/
theorem C1_counterexample :
    parseStart "" = none ∧
    renderLine ⟨some "Meet", some "", some "accepted"⟩ =
      "Meet at Unknown time - Status: accepted" :=
  ⟨rfl, rfl⟩

/-- C1 (amended): an event whose start timestamp string matches none of
the accepted parse formats renders with the raw string verbatim whenever
that string is non-empty; an empty or absent timestamp renders as
`"Unknown time"`.  Rendering is a total function (every exception of the
parsing chain is caught in the source), so it never raises. -/
theorem C1_unparseable_renders_raw :
    (∀ (e : Event) (s : String), e.startDateTime = some s →
      parseStart s = none → s ≠ "" →
      renderLine e = (e.subject.getD "(No subject)") ++ " at " ++ s
        ++ " - Status: " ++ (e.responseStatus.getD "Unknown")) ∧
    startStr (some "") = "Unknown time" ∧ startStr none = "Unknown time" := by
  refine ⟨?_, rfl, rfl⟩
  intro e s hs hp hne
  rcases e with ⟨sub, st, resp⟩
  obtain rfl : st = some s := hs
  simp only [renderLine, startStr, hp, if_neg hne]
  rcases sub with _ | sub <;> rcases resp with _ | resp <;> rfl

/-- C1 witness: a concrete unparseable, non-empty timestamp renders
verbatim. -/
theorem C1_witness :
    renderLine ⟨some "Sync", some "not-a-date", some "tentative"⟩ =
      ((some "Sync").getD "(No subject)") ++ " at " ++ "not-a-date"
        ++ " - Status: " ++ ((some "tentative").getD "Unknown") :=
  C1_unparseable_renders_raw.1
    ⟨some "Sync", some "not-a-date", some "tentative"⟩ "not-a-date"
    rfl (by decide) (by decide)

/-- C2: whenever at least one required configuration value is missing or
empty, the run fails with the configuration error (listing exactly the
missing names) and makes zero outbound calls. -/
theorem C2_config_error_before_network (cfg : Config) (email : String)
    (tok : TokResponse) (cal : CalResponse) (sid : String)
    (h : missingVars cfg ≠ []) :
    notify_user_calendar cfg email tok cal sid =
      (.error (.configError (missingVars cfg)), []) := by
  unfold notify_user_calendar
  rw [if_neg h]

/-- C2 witness: a configuration with `TENANT_ID` unset fails before any
network call. -/
theorem C2_witness :
    notify_user_calendar
      ⟨none, some "client", some "secret", some "scope", some "twilioSid",
       some "twilioToken", some "from1", some "to1"⟩
      "user@example.com" tokGood ⟨200, some ⟨"ok", some []⟩⟩ "SID" =
      (.error (.configError ["TENANT_ID"]), []) := by
  rw [C2_config_error_before_network _ _ _ _ _ (by decide)]
  rfl

/-- C3 (counterexample): a calendar response with status 404 whose body
is not parseable JSON makes the run fail through `resp.raise_for_status()`
— the transport `HTTPError`, whose message carries no body — rather than
the `RuntimeError` of line 93 that includes the parsed body; no messaging
call is made. -/
theorem C3_counterexample :
    notify_user_calendar cfgFull "user@example.com" tokGood ⟨404, none⟩ "SID" =
      (.error (.httpError 404), [Call.tokenCall, Call.calendarCall]) ∧
    errMsg (Err.httpError 404) = "404 Client Error" :=
  ⟨rfl, rfl⟩

/-- C3 (amended): for every calendar response with status ≥ 400 the run
fails and no messaging-send call is made; when the body parsed as JSON
the error is the upstream error of line 93 and its message includes the
parsed body; when the body was not JSON the failure is the transport
`HTTPError` (status 4xx/5xx) or an upstream error showing the empty
dict (status ≥ 600), neither of which includes the body. -/
theorem C3_upstream_error_skips_send (cfg : Config) (email : String)
    (tok : TokResponse) (cal : CalResponse) (sid : String)
    (hcfg : missingVars cfg = []) (htok : hasUsableToken tok = true)
    (hstat : 400 ≤ cal.status_code) :
    (∃ er, (notify_user_calendar cfg email tok cal sid).1 = .error er) ∧
    (notify_user_calendar cfg email tok cal sid).2 =
      [Call.tokenCall, Call.calendarCall] ∧
    (∀ jc : CalJson, cal.json = some jc →
      (notify_user_calendar cfg email tok cal sid).1 =
        .error (.upstreamError cal.status_code jc.repr) ∧
      ∃ pre post, errMsg (.upstreamError cal.status_code jc.repr) =
        pre ++ jc.repr ++ post) := by
  obtain ⟨j, t, hj, ht⟩ := usable_of_hasUsableToken htok
  rw [run_after_token cfg email tok cal sid j t hcfg hj ht]
  unfold calJsonOf
  rcases hcj : cal.json with _ | jc
  · by_cases h6 : cal.status_code < 600
    · refine ⟨⟨Err.httpError cal.status_code, ?_⟩, ?_, ?_⟩ <;>
        simp [hstat, h6]
    · refine ⟨⟨Err.upstreamError cal.status_code "\x7b\x7d", ?_⟩, ?_, ?_⟩ <;>
        simp [hstat, h6]
  · refine ⟨⟨Err.upstreamError cal.status_code jc.repr, ?_⟩, ?_, ?_⟩
    · simp [hstat]
    · simp [hstat]
    · intro jc' hjc
      obtain rfl : jc = jc' := by injection hjc
      refine ⟨by simp [hstat],
        "Graph API error " ++ toString cal.status_code ++ ": ", "", ?_⟩
      simp [errMsg]

/-- C3 witness: a 404 with a JSON error body yields the upstream error
carrying that body, and no messaging call. -/
theorem C3_witness :
    (notify_user_calendar cfgFull "user@example.com" tokGood
        ⟨404, some ⟨"errbody", none⟩⟩ "SID").1 =
      .error (.upstreamError 404 "errbody") :=
  ((C3_upstream_error_skips_send cfgFull "user@example.com" tokGood
      ⟨404, some ⟨"errbody", none⟩⟩ "SID" (by decide) (by decide)
      (by decide)).2.2 ⟨"errbody", none⟩ rfl).1

/-- C4: for every date chosen as today, the window start is 00:00:00 IST
and the window end 23:59:59 IST of that date converted to UTC instants,
and the window spans exactly 86399 seconds; Asia/Kolkata has a fixed
offset and no daylight-saving transitions, so this holds for every
date. -/
theorem C4_window_span (t : Date) (h : validDate t = true) :
    windowStartUtc t = istLocalizeToUtc t.year t.month t.day 0 0 0 ∧
    windowEndUtc t = istLocalizeToUtc t.year t.month t.day 23 59 59 ∧
    windowEndUtc t - windowStartUtc t = 86399 := by
  refine ⟨rfl, rfl, ?_⟩
  simp only [windowEndUtc, windowStartUtc, istLocalizeToUtc, pyMinTime,
    pyMaxTimeSec]
  omega

/-- C4 witness at a concrete date (2024-03-10, a DST-transition date in
zones that observe DST; IST does not). -/
theorem C4_witness :
    validDate ⟨2024, 3, 10⟩ = true ∧
    windowEndUtc ⟨2024, 3, 10⟩ - windowStartUtc ⟨2024, 3, 10⟩ = 86399 :=
  ⟨by decide, (C4_window_span ⟨2024, 3, 10⟩ (by decide)).2.2⟩

/-- C5: the empty event list yields exactly the fixed sentence; a
non-empty list of rendered lines yields the header followed by the lines
joined with newlines, and the lines are one per event in input order. -/
theorem C5_digest_assembly :
    buildBody [] = "No meetings scheduled for today." ∧
    (∀ lines : List String, lines ≠ [] →
      buildBody lines =
        "Today's scheduled meetings:\n" ++ String.intercalate "\n" lines) ∧
    (∀ events : List Event, eventLines events = events.map renderLine) := by
  refine ⟨rfl, ?_, eventLines_eq_map⟩
  intro lines hne
  rcases lines with _ | ⟨x, xs⟩
  · exact absurd rfl hne
  · simp [buildBody, joinNl_eq_intercalate]

/-- C5 witness at a concrete two-line list. -/
theorem C5_witness :
    buildBody ["a", "b"] =
      "Today's scheduled meetings:\n" ++ String.intercalate "\n" ["a", "b"] :=
  C5_digest_assembly.2.1 ["a", "b"] (by decide)

/-- C6: every event renders as
`"{subject} at {localized start} - Status: {status}"`, with subject
defaulting to `"(No subject)"` and status defaulting to `"Unknown"` when
absent. -/
theorem C6_line_shape (e : Event) :
    renderLine e = (e.subject.getD "(No subject)") ++ " at "
      ++ startStr e.startDateTime ++ " - Status: "
      ++ (e.responseStatus.getD "Unknown") := by
  rcases e with ⟨s, st, r⟩
  rcases s with _ | s <;> rcases r with _ | r <;> rfl

/-- C7: every successfully parsed start timestamp is displayed by
treating it as UTC-naive, localizing to UTC, converting to IST (+05:30)
and formatting as `YYYY-MM-DD HH:MM:SS IST`; in particular the Standup
event at `2024-01-10T09:00:00.000` renders at 14:30:00 IST (09:00 UTC
converted). -/
theorem C7_parsed_display :
    (∀ (s : String) (dt : DT), parseStart s = some dt →
      startStr (some s) = fmtIstDisplay dt) ∧
    buildBody (eventLines
        [⟨some "Standup", some "2024-01-10T09:00:00.000", some "accepted"⟩]) =
      "Today's scheduled meetings:\nStandup at 2024-01-10 14:30:00 IST - Status: accepted" := by
  constructor
  · intro s dt h
    simp only [startStr, h]
  · rfl

/-- C7 witness: the concrete Standup timestamp parses and displays via
the localization pipeline. -/
theorem C7_witness :
    startStr (some "2024-01-10T09:00:00.000") =
      fmtIstDisplay ⟨2024, 1, 10, 9, 0, 0, 0⟩ :=
  C7_parsed_display.1 "2024-01-10T09:00:00.000" ⟨2024, 1, 10, 9, 0, 0, 0⟩
    (by decide)

/-- C8: a token response that succeeds at the transport level
(status < 400) but carries no usable access token makes the run fail with
the auth error, after the token call only (the calendar is never
queried). -/
theorem C8_no_token_auth_error (cfg : Config) (email : String)
    (tok : TokResponse) (cal : CalResponse) (sid : String)
    (hcfg : missingVars cfg = []) (htrans : tok.status_code < 400)
    (hno : hasUsableToken tok = false) :
    notify_user_calendar cfg email tok cal sid =
      (.error (.authError (tokRepr tok)), [Call.tokenCall]) := by
  unfold notify_user_calendar tokenJsonOf
  rw [if_pos hcfg]
  rcases hj : tok.json with _ | j
  · have hcond : ¬(400 ≤ tok.status_code ∧ tok.status_code < 600) := by omega
    simp [hcond, usableToken, tokRepr, hj]
  · rcases husable : usableToken j with _ | t
    · simp [husable, tokRepr, hj]
    · exfalso
      unfold hasUsableToken at hno
      simp [hj, husable] at hno

/-- C8 witness: a 200 token response whose JSON has no `access_token`. -/
theorem C8_witness :
    notify_user_calendar cfgFull "user@example.com"
      ⟨200, some ⟨"nojson", none⟩⟩ ⟨200, some ⟨"ok", some []⟩⟩ "SID" =
      (.error (.authError "nojson"), [Call.tokenCall]) :=
  C8_no_token_auth_error cfgFull "user@example.com"
    ⟨200, some ⟨"nojson", none⟩⟩ ⟨200, some ⟨"ok", some []⟩⟩ "SID"
    (by decide) (by decide) (by decide)

/-- C9: the scheduled trigger never propagates an exception: for every
default-identity value and every run outcome the job returns `.ok`; an
absent identity only logs the error line, and every error the run raises
is caught and logged. -/
theorem C9_scheduled_never_raises :
    (∀ (email : Option String) (runner : String → Except Err RunResult),
      ∃ logs, scheduled_job email runner = .ok logs) ∧
    (∀ runner : String → Except Err RunResult,
      scheduled_job none runner = .ok [LogEntry.errorNoEmail]) ∧
    (∀ err : Err,
      scheduled_job (some "user@example.com") (fun _ => .error err) =
        .ok [LogEntry.exceptionLog err]) := by
  refine ⟨?_, fun _ => rfl, fun _ => rfl⟩
  intro email runner
  rcases email with _ | e
  · exact ⟨_, rfl⟩
  · by_cases he : e = ""
    · exact ⟨[LogEntry.errorNoEmail], by simp [scheduled_job, he]⟩
    · rcases hr : runner e with er | r
      · exact ⟨[LogEntry.exceptionLog er], by simp [scheduled_job, he, hr]⟩
      · exact ⟨[LogEntry.infoSent r.sid r.events.length],
          by simp [scheduled_job, he, hr]⟩

/-- C10: a success-status calendar response whose body is not JSON or
lacks a `value` list is treated as an empty event list: the run sends the
fixed empty-state sentence and returns successfully with no rendered
events. -/
theorem C10_missing_value_sends_empty_digest (cfg : Config) (email : String)
    (tok : TokResponse) (cal : CalResponse) (sid : String)
    (hcfg : missingVars cfg = []) (htok : hasUsableToken tok = true)
    (hstat : cal.status_code < 400) (hval : calValueMissing cal = true) :
    notify_user_calendar cfg email tok cal sid =
      (.ok ⟨"WhatsApp notification sent", sid, []⟩,
       [Call.tokenCall, Call.calendarCall,
        Call.messageCall "No meetings scheduled for today."]) := by
  obtain ⟨j, t, hj, ht⟩ := usable_of_hasUsableToken htok
  rw [run_after_token cfg email tok cal sid j t hcfg hj ht]
  have hnot : ¬ 400 ≤ cal.status_code := by omega
  rcases hcj : cal.json with _ | jc
  · have hcond : ¬(400 ≤ cal.status_code ∧ cal.status_code < 600) := by omega
    unfold calJsonOf
    rw [hcj]
    simp [hcond, hnot, eventLines, buildBody]
  · have hvn : jc.value = none := by
      unfold calValueMissing at hval
      rw [hcj] at hval
      simpa using hval
    unfold calJsonOf
    rw [hcj]
    simp [hnot, hvn, eventLines, buildBody]

/-- C10 witness: a 200 response with a non-JSON body still sends the
fixed sentence. -/
theorem C10_witness :
    notify_user_calendar cfgFull "user@example.com" tokGood ⟨200, none⟩ "SID" =
      (.ok ⟨"WhatsApp notification sent", "SID", []⟩,
       [Call.tokenCall, Call.calendarCall,
        Call.messageCall "No meetings scheduled for today."]) :=
  C10_missing_value_sends_empty_digest cfgFull "user@example.com" tokGood
    ⟨200, none⟩ "SID" (by decide) (by decide) (by decide) (by decide)

end EventNotifier
